import Mathlib

/-!
Verification of the gcp-agentor routing and session-orchestration subsystem.

The Python source (gcp_agentor/acp.py, agent_registry.py, memory.py,
invoker.py, router.py, core.py) is embedded shallowly:

* Python runtime values that flow through the ACP message, the session
  store and the response envelopes are modeled by `PyVal`; Python dicts
  become insertion-ordered association lists (`Dict`).
* Operations that can raise in Python return `Except String _`; the
  exception payload is the (approximate) exception text.
* Wall-clock reads (`datetime.utcnow`, `time.time`) are parameters of the
  embedding (`nowIso`, `nowTs`); a whole `route` call runs at one instant.
* Only the in-memory storage backends are modeled (`FIRESTORE_AVAILABLE =
  False`); the Firestore branches are external I/O.
* Reasoning-log writes (`ReasoningLogger.log` and its helpers) append to
  the in-memory log and never raise, never influence control flow, the
  response envelope or the session store; their payloads are not modeled.
-/

set_option autoImplicit false

namespace GcpAgentor

/-- Python runtime values as they appear in ACP messages, contexts,
session documents and response envelopes.  Floats are modeled as integers
(they occur only as opaque timestamp / elapsed-time data). -/
inductive PyVal where
  | none
  | bool (b : Bool)
  | int (n : Int)
  | str (s : String)
  | list (xs : List PyVal)
  | dict (xs : List (String × PyVal))

/-- A Python dict with string keys: an insertion-ordered association list. -/
abbrev Dict := List (String × PyVal)

/-- Python truthiness (`bool(v)`). -/
def PyVal.truthy : PyVal → Bool
  | .none => false
  | .bool b => b
  | .int n => n != 0
  | .str s => !s.toList.isEmpty
  | .list xs => !xs.isEmpty
  | .dict xs => !xs.isEmpty

/-- `v is None`. -/
def PyVal.isNone : PyVal → Bool
  | .none => true
  | _ => false

/-- Python `str(v)`.  The renderings of containers are abbreviated; no
verified property depends on them (they only occur inside error text for
ill-typed inputs). -/
def PyVal.pyStr : PyVal → String
  | .none => "None"
  | .bool b => if b then "True" else "False"
  | .int n => toString n
  | .str s => s
  | .list _ => "[...]"
  | .dict _ => "\x7b...\x7d"

/-- Lookup in an association list (Python `d[k]` / `d.get(k)`),
first-match on the key. -/
def assocGet {α : Type} : List (String × α) → String → Option α
  | [], _ => Option.none
  | (k2, v) :: rest, k => if k2 = k then some v else assocGet rest k

/-- Python `d[k] = v`: update in place if the key exists (keeping its
position), otherwise append at the end. -/
def assocSet {α : Type} : List (String × α) → String → α → List (String × α)
  | [], k, v => [(k, v)]
  | (k2, v2) :: rest, k, v =>
      if k2 = k then (k2, v) :: rest else (k2, v2) :: assocSet rest k v

def dictGet (d : Dict) (k : String) : Option PyVal := assocGet d k

def dictSet (d : Dict) (k : String) (v : PyVal) : Dict := assocSet d k v

/-- Python `k in d`. -/
def dictHasKey (d : Dict) (k : String) : Bool := (assocGet d k).isSome

/-- Python `{**a, **b}`: entries of `b` overlaid on `a`, `b` wins. -/
def dictMerge (a b : Dict) : Dict := b.foldl (fun acc p => assocSet acc p.1 p.2) a

/-- `needle` is a prefix of `hay` (over character lists). -/
def listPrefixOf : List Char → List Char → Bool
  | [], _ => true
  | _ :: _, [] => false
  | a :: as, b :: bs => a == b && listPrefixOf as bs

/-- `needle` occurs contiguously inside `hay` (over character lists). -/
def listInfixOf (needle : List Char) : List Char → Bool
  | [] => listPrefixOf needle []
  | b :: bs => listPrefixOf needle (b :: bs) || listInfixOf needle bs

/-- Python `needle in hay` for strings: substring containment. -/
def strContains (hay needle : String) : Bool := listInfixOf needle.toList hay.toList

/-!
## acp.py — the ACP message contract
-/

/-- `ACPMessage` dataclass (acp.py).  Field values are arbitrary Python
values: the dataclass annotations are not enforced at runtime. -/
structure ACPMessage where
  from_id : PyVal
  to_id : PyVal
  intent : PyVal
  message : PyVal
  language : PyVal
  context : PyVal
  timestamp : PyVal
  session_id : PyVal

/-- `ACPMessage.__post_init__`: fill `context`, `timestamp`, `session_id`
defaults.  `nowIso` stands for `datetime.utcnow().isoformat()` and `nowTs`
for `int(datetime.utcnow().timestamp())`. -/
def ACPMessage.postInit (m : ACPMessage) (nowIso : String) (nowTs : Int) : ACPMessage :=
  { m with
    context := if m.context.isNone then .dict [] else m.context
    timestamp := if m.timestamp.isNone then .str nowIso else m.timestamp
    session_id := if m.session_id.isNone then .str ("session_" ++ toString nowTs) else m.session_id }

/-- `ACPMessage.to_dict` (`dataclasses.asdict`): the eight fields in
declaration order. -/
def ACPMessage.toDict (m : ACPMessage) : Dict :=
  [("from_id", m.from_id), ("to_id", m.to_id), ("intent", m.intent),
   ("message", m.message), ("language", m.language), ("context", m.context),
   ("timestamp", m.timestamp), ("session_id", m.session_id)]

/-- The keyword parameters accepted by the `ACPMessage` constructor. -/
def acpFieldNames : List String :=
  ["from_id", "to_id", "intent", "message", "language", "context", "timestamp", "session_id"]

/-- `ACPMessage.from_dict`: `cls(**data)`.  A key outside the dataclass
fields or a missing required field raises `TypeError`; otherwise the
constructor runs (defaults for absent optional fields, then
`__post_init__`). -/
def ACPMessage.fromDict (data : Dict) (nowIso : String) (nowTs : Int) :
    Except String ACPMessage :=
  match data.find? (fun p => !(acpFieldNames.contains p.1)) with
  | some p => .error ("__init__() got an unexpected keyword argument " ++ p.1)
  | Option.none =>
    match dictGet data "from_id", dictGet data "to_id",
          dictGet data "intent", dictGet data "message" with
    | some f, some t, some i, some msg =>
        .ok (ACPMessage.postInit
          { from_id := f, to_id := t, intent := i, message := msg
            language := (dictGet data "language").getD (.str "en-US")
            context := (dictGet data "context").getD .none
            timestamp := (dictGet data "timestamp").getD .none
            session_id := (dictGet data "session_id").getD .none } nowIso nowTs)
    | _, _, _, _ => .error "__init__() missing required positional arguments"

/-- `ACPMessage.is_valid`: required fields not `None`, `language` a string
of length at least 2, `context` absent-or-mapping. -/
def ACPMessage.is_valid (m : ACPMessage) : Bool :=
  !m.from_id.isNone && !m.to_id.isNone && !m.intent.isNone && !m.message.isNone
  && (match m.language with
      | .str s => decide (2 ≤ s.length)
      | _ => false)
  && (match m.context with
      | .none => true
      | .dict _ => true
      | _ => false)

/-- The context of a message that passed `is_valid` is a mapping;
`message.context or \x7b\x7d` is that mapping (empty either way when it is
falsy).  Router code only reads the context after the validity check. -/
def ACPMessage.ctxDict (m : ACPMessage) : Dict :=
  match m.context with
  | .dict d => d
  | _ => []

/-!
## Structural Python equality and membership

`pyEq` is structural; Python additionally identifies `True == 1` and
compares dicts order-insensitively, which never arises on the values the
registry and router handle (tags and intents are strings).
-/

mutual

def pyEq : PyVal → PyVal → Bool
  | .none, .none => true
  | .bool a, .bool b => a == b
  | .int a, .int b => a == b
  | .str a, .str b => a == b
  | .list a, .list b => pyEqList a b
  | .dict a, .dict b => pyEqDict a b
  | _, _ => false

def pyEqList : List PyVal → List PyVal → Bool
  | [], [] => true
  | a :: as2, b :: bs => pyEq a b && pyEqList as2 bs
  | _, _ => false

def pyEqDict : List (String × PyVal) → List (String × PyVal) → Bool
  | [], [] => true
  | (k1, v1) :: as2, (k2, v2) :: bs => k1 == k2 && pyEq v1 v2 && pyEqDict as2 bs
  | _, _ => false

end

/-- Python `x in container`: list membership by equality, substring test
for strings, key membership for dicts; `TypeError` otherwise. -/
def pyIn (x : PyVal) : PyVal → Except String Bool
  | .list xs => .ok (xs.any (fun v => pyEq x v))
  | .str s =>
      match x with
      | .str t => .ok (strContains s t)
      | _ => .error "in <string> requires string as left operand"
  | .dict xs =>
      match x with
      | .str t => .ok (assocGet xs t).isSome
      | .dict _ => .error "unhashable type: dict"
      | .list _ => .error "unhashable type: list"
      | _ => .ok false
  | .none => .error "argument of type NoneType is not iterable"
  | .bool _ => .error "argument of type bool is not iterable"
  | .int _ => .error "argument of type int is not iterable"

/-- Python `x in d` for a dict with string keys (`TypeError` when `x` is
unhashable, `False` for hashable non-strings since all keys are strings). -/
def strKeyMember (keys : List String) : PyVal → Except String Bool
  | .str s => .ok (keys.contains s)
  | .dict _ => .error "unhashable type: dict"
  | .list _ => .error "unhashable type: list"
  | _ => .ok false

/-!
## agent_registry.py
-/

/-- A registered handler: either an object with an `invoke` method (which
may raise), or one without (routing then goes through the invocation
gateway). -/
inductive Agent where
  | withInvoke (invoke : PyVal → Dict → Except String PyVal)
  | plain

/-- `AgentMetadata` dataclass.  Beyond `name` (always a string: `register`
passes its own `name` argument) the field values are arbitrary Python
values, since `**metadata` is not type-checked. -/
structure AgentMetadata where
  name : String
  description : PyVal
  capabilities : PyVal
  intents : PyVal
  version : PyVal
  is_active : PyVal
  config : PyVal

/-- `AgentMetadata.__post_init__`. -/
def AgentMetadata.postInit (m : AgentMetadata) : AgentMetadata :=
  { m with
    capabilities := if m.capabilities.isNone then .list [] else m.capabilities
    intents := if m.intents.isNone then .list [] else m.intents
    config := if m.config.isNone then .dict [] else m.config }

/-- The keyword parameters of `AgentMetadata` that `register` may fill
from its `metadata` argument (`name` itself would be a duplicate-argument
`TypeError`, and is likewise not in this list). -/
def allowedMetaKeys : List String :=
  ["description", "capabilities", "intents", "version", "is_active", "config"]

/-- `AgentMetadata(name=name, **(metadata or \x7b\x7d))`: `TypeError` on a
key outside the dataclass fields, else construct with defaults and run
`__post_init__`. -/
def AgentMetadata.fromKwargs (name : String) (metadata : Dict) : Except String AgentMetadata :=
  match metadata.find? (fun p => !(allowedMetaKeys.contains p.1)) with
  | some p => .error ("__init__() got an unexpected keyword argument " ++ p.1)
  | Option.none =>
    .ok (AgentMetadata.postInit
      { name := name
        description := (dictGet metadata "description").getD (.str "")
        capabilities := (dictGet metadata "capabilities").getD .none
        intents := (dictGet metadata "intents").getD .none
        version := (dictGet metadata "version").getD (.str "1.0.0")
        is_active := (dictGet metadata "is_active").getD (.bool true)
        config := (dictGet metadata "config").getD .none })

/-- `AgentRegistry`: the `_agents` and `_metadata` dicts. -/
structure AgentRegistry where
  agents : List (String × Agent)
  metadata : List (String × AgentMetadata)

def AgentRegistry.empty : AgentRegistry := ⟨[], []⟩

/-- `AgentRegistry.register`.  `self._agents[name] = agent` runs before
the metadata object is constructed, so when `AgentMetadata(**metadata)`
raises, the registry is left with the handler stored but the metadata
untouched; the error value carries that partially-updated state. -/
def AgentRegistry.register (r : AgentRegistry) (name : String) (agent : Agent)
    (metadata : Dict) : Except (String × AgentRegistry) AgentRegistry :=
  let r1 : AgentRegistry := { r with agents := assocSet r.agents name agent }
  match AgentMetadata.fromKwargs name metadata with
  | .error e => .error (e, r1)
  | .ok md => .ok { r1 with metadata := assocSet r1.metadata name md }

/-- `AgentRegistry.get`. -/
def AgentRegistry.get (r : AgentRegistry) (name : String) : Option Agent :=
  assocGet r.agents name

/-- `AgentRegistry.is_registered` (`name in self._agents`). -/
def AgentRegistry.is_registered (r : AgentRegistry) (name : String) : Bool :=
  (r.get name).isSome

/-- `AgentRegistry.list_active`: metadata entries whose `is_active` is
truthy, in insertion order. -/
def AgentRegistry.list_active (r : AgentRegistry) : List String :=
  (r.metadata.filter (fun p => p.2.is_active.truthy)).map Prod.fst

/-- Filter loop of `AgentRegistry.list_by_intent` with Python
short-circuit evaluation: `metadata.intents and intent in metadata.intents
and metadata.is_active`. -/
def listByIntentGo (intent : PyVal) : List (String × AgentMetadata) → Except String (List String)
  | [] => .ok []
  | (name, md) :: rest =>
    let keepE : Except String Bool :=
      if md.intents.truthy then
        match pyIn intent md.intents with
        | .error e => .error e
        | .ok hit => .ok (hit && md.is_active.truthy)
      else .ok false
    match keepE with
    | .error e => .error e
    | .ok keep =>
      match listByIntentGo intent rest with
      | .error e => .error e
      | .ok tail => .ok (if keep then name :: tail else tail)

/-- `AgentRegistry.list_by_intent`. -/
def AgentRegistry.list_by_intent (r : AgentRegistry) (intent : PyVal) :
    Except String (List String) :=
  listByIntentGo intent r.metadata

/-!
## memory.py — in-memory MemoryManager
-/

/-- `MemoryManager._memory`: session documents keyed by `"user_" + id`. -/
abbrev Memory := List (String × Dict)

/-- `MemoryManager.get_session` (in-memory backend). -/
def MemoryManager.get_session (mem : Memory) (user_id : String) : Dict :=
  (assocGet mem ("user_" ++ user_id)).getD []

/-- `MemoryManager.save_session` (in-memory backend). -/
def MemoryManager.save_session (mem : Memory) (user_id : String) (data : Dict) : Memory :=
  assocSet mem ("user_" ++ user_id) data

/-- `history[-100:]` applied only when the history exceeds 100 entries
(the "keep only last 100 messages" step). -/
def truncate100 (l : List PyVal) : List PyVal :=
  if l.length > 100 then l.drop (l.length - 100) else l

/-- `MemoryManager.add_conversation_message`: ensure the history list
exists, stamp the message if it has no timestamp, append, truncate to the
last 100 entries, stamp `last_updated`, save.  Raises (`AttributeError`)
when an existing `conversation_history` value is not a list. -/
def MemoryManager.add_conversation_message (mem : Memory) (user_id : String)
    (message : Dict) (nowIso : String) : Except String Memory :=
  let session := MemoryManager.get_session mem user_id
  let session :=
    if dictHasKey session "conversation_history" then session
    else dictSet session "conversation_history" (.list [])
  let message :=
    if dictHasKey message "timestamp" then message
    else dictSet message "timestamp" (.str nowIso)
  match dictGet session "conversation_history" with
  | some (.list l) =>
    let hist := truncate100 (l ++ [PyVal.dict message])
    .ok (MemoryManager.save_session mem user_id
      (dictSet (dictSet session "conversation_history" (.list hist))
        "last_updated" (.str nowIso)))
  | _ => .error "object has no attribute append"

/-!
## invoker.py — local invocation path
-/

/-- `AgentInvoker.invoke` with the default `agent_type="local"`: the local
branch never raises and returns a fixed formatted string. -/
def AgentInvoker.invoke (agent_name : String) (message : PyVal) (_context : Dict) : PyVal :=
  .str ("Local agent \x27" ++ agent_name ++ "\x27 response: " ++ message.pyStr)

/-!
## router.py
-/

/-- One step of a tool-chain definition (`\x7b"agent": ..., "purpose":
...\x7d`); both values are strings per the seeded configuration and the
`add_tool_chain` signature. -/
structure ToolStep where
  agent : String
  purpose : String

/-- The seeded `_intent_mapping` of `AgentRouter.__init__`. -/
def defaultIntentMapping : List (String × List String) :=
  [("get_crop_advice", ["crop_advisor"]),
   ("get_weather", ["weather"]),
   ("pest_control", ["pest_assistant"]),
   ("soil_analysis", ["soil_analyzer"]),
   ("market_prices", ["market_agent"]),
   ("general_help", ["general_assistant"])]

/-- The seeded `_tool_chains` of `AgentRouter.__init__`. -/
def defaultToolChains : List (String × List ToolStep) :=
  [("comprehensive_advice",
    [⟨"weather", "get_weather_data"⟩,
     ⟨"crop_advisor", "get_crop_recommendations"⟩,
     ⟨"pest_assistant", "get_pest_advice"⟩])]

/-- The mutable state a `route` call reads: registry, session store,
routing configuration, and the clock values for this instant. -/
structure RouterState where
  registry : AgentRegistry
  memory : Memory
  intentMapping : List (String × List String)
  toolChains : List (String × List ToolStep)
  nowIso : String
  nowTs : Int

/-- `AgentRouter._create_error_response`. -/
def createErrorResponse (error_message : String) : Dict :=
  [("success", .bool false),
   ("error", .str error_message),
   ("response", .str ("Sorry, I encountered an error: " ++ error_message)),
   ("agent", .none)]

/-- `s[n:]` over characters. -/
def strDropChars (s : String) (n : Nat) : String := String.mk (s.toList.drop n)

/-- `s.startswith(pre)`. -/
def strStartsWith (s pre : String) : Bool := listPrefixOf pre.toList s.toList

/-- `s.lower()` (the keyword vocabulary is ASCII). -/
def strLower (s : String) : String := String.mk (s.toList.map Char.toLower)

/-- `AgentRouter._extract_user_id` (also
`AgentOrchestrator._extract_user_id`, same code): strip a `user:` prefix;
`AttributeError` when `from_id` is not a string. -/
def extractUserId : PyVal → Except String String
  | .str s => .ok (if strStartsWith s "user:" then strDropChars s 5 else s)
  | _ => .error "object has no attribute startswith"

/-- `any(word in message_lower for word in words)`. -/
def containsAny (message_lower : String) (words : List String) : Bool :=
  words.any (fun w => strContains message_lower w)

/-- The keyword cascade of `AgentRouter._analyze_intent` on the
lower-cased message text. -/
def keywordIntent (s : String) : String :=
  let ml := strLower s
  if containsAny ml ["crop", "plant", "grow", "harvest"] then "get_crop_advice"
  else if containsAny ml ["weather", "rain", "temperature", "climate"] then "get_weather"
  else if containsAny ml ["pest", "disease", "insect", "treatment"] then "pest_control"
  else if containsAny ml ["soil", "ph", "nutrient", "fertilizer"] then "soil_analysis"
  else if containsAny ml ["price", "market", "cost", "sell"] then "market_prices"
  else "general_help"

/-- `AgentRouter._analyze_intent`: a truthy explicit intent wins verbatim;
otherwise keyword detection over `message.message.lower()`
(`AttributeError` when the payload is not a string). -/
def analyzeIntent (m : ACPMessage) : Except String PyVal :=
  if m.intent.truthy then .ok m.intent
  else
    match m.message with
    | .str s => .ok (.str (keywordIntent s))
    | _ => .error "object has no attribute lower"

/-- `AgentRouter._select_agents`: tool-chain request, else direct intent
mapping filtered to registered handlers, else by-intent capability search,
else the general assistant, else empty. -/
def selectAgents (reg : AgentRegistry) (im : List (String × List String))
    (tc : List (String × List ToolStep)) (intent : PyVal) (context : Dict) :
    Except String (List String) :=
  let chainVal := (dictGet context "tool_chain").getD PyVal.none
  let chainHitE : Except String Bool :=
    if chainVal.truthy then strKeyMember (tc.map Prod.fst) chainVal else .ok false
  match chainHitE with
  | .error e => .error e
  | .ok chainHit =>
    match chainHit, chainVal with
    | true, .str chain_name => .ok (((assocGet tc chain_name).getD []).map ToolStep.agent)
    | _, _ =>
      match strKeyMember (im.map Prod.fst) intent with
      | .error e => .error e
      | .ok inMap =>
        match inMap, intent with
        | true, .str i =>
            .ok (((assocGet im i).getD []).filter (fun a => reg.is_registered a))
        | _, _ =>
          match reg.list_by_intent intent with
          | .error e => .error e
          | .ok byIntent =>
            .ok (if !byIntent.isEmpty then byIntent
                 else if reg.is_registered "general_assistant" then ["general_assistant"]
                 else [])

/-- `AgentRouter._prepare_context`: persisted user context overlaid by the
message context, plus injected `user_id` and a request timestamp.
`TypeError` when a stored `context` value is not a mapping. -/
def prepareContext (mem : Memory) (user_id : String) (message_context : Dict)
    (nowTs : Int) : Except String Dict :=
  let session := MemoryManager.get_session mem user_id
  let ucE : Except String Dict :=
    if !session.isEmpty && dictHasKey session "context" then
      match dictGet session "context" with
      | some (.dict d) => .ok d
      | _ => .error "argument after ** must be a mapping"
    else .ok []
  match ucE with
  | .error e => .error e
  | .ok user_context =>
    let combined := dictMerge user_context message_context
    .ok (dictSet (dictSet combined "user_id" (.str user_id)) "timestamp" (.int nowTs))

/-- `AgentRouter._invoke_single_agent`.  Its `try` block catches every
exception (missing agent is reported separately before that), so the
result is always an envelope. -/
def invokeSingleAgent (st : RouterState) (agent_name : String) (msg : ACPMessage)
    (user_id : String) : Dict :=
  match st.registry.get agent_name with
  | Option.none => createErrorResponse ("Agent " ++ agent_name ++ " not found")
  | some agent =>
    match prepareContext st.memory user_id msg.ctxDict st.nowTs with
    | .error e => createErrorResponse ("Agent " ++ agent_name ++ " failed: " ++ e)
    | .ok context =>
      let invoked : Except String PyVal :=
        match agent with
        | .withInvoke f => f msg.message context
        | .plain => .ok (AgentInvoker.invoke agent_name msg.message context)
      match invoked with
      | .error e => createErrorResponse ("Agent " ++ agent_name ++ " failed: " ++ e)
      | .ok r =>
        [("success", .bool true), ("agent", .str agent_name),
         ("response", r), ("context", .dict context)]

/-- One invocation attempt inside the chain loop: a registered handler
with an `invoke` method is called directly (and may raise); otherwise the
invocation gateway is used (local mode, never raises). -/
def chainStep (reg : AgentRegistry) (name : String) (msgText : PyVal) (context : Dict) :
    Except String PyVal :=
  if reg.is_registered name then
    match reg.get name with
    | some (.withInvoke f) => f msgText context
    | _ => .ok (AgentInvoker.invoke name msgText context)
  else .ok (AgentInvoker.invoke name msgText context)

/-- A successful step record of the chain loop. -/
def stepOk (name : String) (i : Int) (r : PyVal) : Dict :=
  [("agent", .str name), ("step", .int i), ("result", r)]

/-- A failed step record of the chain loop (the error marker). -/
def stepErr (name : String) (i : Int) (e : String) : Dict :=
  [("agent", .str name), ("step", .int i), ("error", .str e)]

/-- The `for i, agent_name in enumerate(agents)` loop of
`_execute_tool_chain`: before each step with accumulated results, store
them under `previous_results`; a failing step is recorded with an `error`
marker and the loop continues.  Returns the accumulated step results and
the context dict as last written. -/
def chainLoop (reg : AgentRegistry) (msgText : PyVal) :
    List String → Dict → List Dict → Int → List Dict × Dict
  | [], context, results, _ => (results, context)
  | name :: rest, context, results, i =>
    let context :=
      if results.isEmpty then context
      else dictSet context "previous_results" (.list (results.map PyVal.dict))
    let entry : Dict :=
      match chainStep reg name msgText context with
      | .ok r => stepOk name i r
      | .error e => stepErr name i e
    chainLoop reg msgText rest context (results ++ [entry]) (i + 1)

/-- `AgentRouter._combine_tool_chain_results`. -/
def combineToolChainResults (results : List Dict) : String :=
  if results.isEmpty then "No results from tool chain"
  else
    String.intercalate "\n\n" (results.map fun r =>
      let agent := PyVal.pyStr ((dictGet r "agent").getD (.str "unknown"))
      if dictHasKey r "error" then
        "❌ " ++ agent ++ ": " ++ PyVal.pyStr ((dictGet r "error").getD PyVal.none)
      else
        "✅ " ++ agent ++ ": " ++ PyVal.pyStr ((dictGet r "result").getD (.str "No response")))

/-- The combined envelope `_execute_tool_chain` builds after the loop.
The Python `context` dict stores a reference to the `chain_results` list,
so once the loop has written `previous_results` (which happens exactly
when there are at least two steps), the returned context sees the final
list. -/
def chainResponse (st : RouterState) (agents : List String) (msg : ACPMessage)
    (context : Dict) : Dict :=
  let (results, contextAfter) := chainLoop st.registry msg.message agents context [] 1
  let finalContext :=
    if 2 ≤ agents.length then
      dictSet contextAfter "previous_results" (.list (results.map PyVal.dict))
    else contextAfter
  [("success", .bool true),
   ("tool_chain", .bool true),
   ("agents", .list (agents.map PyVal.str)),
   ("response", .str (combineToolChainResults results)),
   ("step_results", .list (results.map PyVal.dict)),
   ("context", .dict finalContext)]

/-- `AgentRouter._execute_tool_chain`: prepare the merged context (which
may raise), run the chain loop, combine. -/
def executeToolChain (st : RouterState) (agents : List String) (msg : ACPMessage)
    (user_id : String) : Except String Dict :=
  match prepareContext st.memory user_id msg.ctxDict st.nowTs with
  | .error e => .error e
  | .ok context => .ok (chainResponse st agents msg context)

/-- `AgentRouter.route`.  Reasoning-log writes (`message_received`,
`intent_analysis`, `agent_selection`, `response_sent`) are in-memory log
appends with no effect on the result or the session store and are not
modeled; `route` thus returns just the response envelope.  The
single-instant clock makes the computed `execution_time` zero. -/
def route (st : RouterState) (acp_message : Dict) : Dict :=
  match ACPMessage.fromDict acp_message st.nowIso st.nowTs with
  | .error e => createErrorResponse ("Routing error: " ++ e)
  | .ok message =>
    if !message.is_valid then createErrorResponse "Invalid ACP message format"
    else
      match extractUserId message.from_id with
      | .error e => createErrorResponse ("Routing error: " ++ e)
      | .ok user_id =>
        match analyzeIntent message with
        | .error e => createErrorResponse ("Routing error: " ++ e)
        | .ok intent =>
          match selectAgents st.registry st.intentMapping st.toolChains intent
              message.ctxDict with
          | .error e => createErrorResponse ("Routing error: " ++ e)
          | .ok [] => createErrorResponse ("No agent found for intent: " ++ intent.pyStr)
          | .ok (a1 :: rest) =>
            let dispatched : Except String Dict :=
              if !rest.isEmpty then executeToolChain st (a1 :: rest) message user_id
              else .ok (invokeSingleAgent st a1 message user_id)
            match dispatched with
            | .error e => createErrorResponse ("Routing error: " ++ e)
            | .ok response =>
              dictSet (dictSet (dictSet response "execution_time" (.int 0))
                "session_id" message.session_id) "user_id" (.str user_id)

/-!
## core.py — AgentOrchestrator.handle_message
-/

/-- The envelope `handle_message` returns when its `try` block raises. -/
def orchestratorError (e : String) : Dict :=
  [("success", .bool false),
   ("error", .str ("Orchestrator error: " ++ e)),
   ("response", .str "Sorry, I encountered an error processing your request.")]

/-- The invalid-format envelope of `handle_message`. -/
def orchestratorInvalid : Dict :=
  [("success", .bool false),
   ("error", .str "Invalid ACP message format"),
   ("response", .str "Please provide a valid message format.")]

/-- `AgentOrchestrator.handle_message`: validate, route, then append the
`(message, response)` pair to the conversation history before returning
the response.  Every exception inside is converted to an orchestrator
error envelope (with the session store then left as it was, since the
failing operations raise before any save).  Returns the envelope and the
resulting session store. -/
def handleMessage (st : RouterState) (acp_message : Dict) : Dict × Memory :=
  match ACPMessage.fromDict acp_message st.nowIso st.nowTs with
  | .error e => (orchestratorError e, st.memory)
  | .ok message =>
    if !message.is_valid then (orchestratorInvalid, st.memory)
    else
      let response := route st acp_message
      match extractUserId message.from_id with
      | .error e => (orchestratorError e, st.memory)
      | .ok user_id =>
        match MemoryManager.add_conversation_message st.memory user_id
            [("message", .dict message.toDict), ("response", .dict response)] st.nowIso with
        | .error e => (orchestratorError e, st.memory)
        | .ok mem2 => (response, mem2)

/-!
## Helper lemmas about the dictionary model
-/

theorem assocGet_assocSet_self {α : Type} (l : List (String × α)) (k : String) (v : α) :
    assocGet (assocSet l k v) k = some v := by
  induction l with
  | nil => simp [assocGet, assocSet]
  | cons p rest ih =>
    obtain ⟨k2, v2⟩ := p
    by_cases h : k2 = k <;> simp [assocGet, assocSet, h, ih]

theorem assocGet_assocSet_ne {α : Type} (l : List (String × α)) (k k2 : String) (v : α)
    (h : k2 ≠ k) : assocGet (assocSet l k v) k2 = assocGet l k2 := by
  have h2 : k ≠ k2 := fun hh => h hh.symm
  induction l with
  | nil => simp [assocGet, assocSet, h2]
  | cons p rest ih =>
    obtain ⟨k3, v3⟩ := p
    by_cases h3 : k3 = k
    · subst h3
      simp [assocGet, assocSet, h2]
    · by_cases h4 : k3 = k2 <;> simp [assocGet, assocSet, h, h3, h4, ih]

theorem dictHasKey_dictSet_self (d : Dict) (k : String) (v : PyVal) :
    dictHasKey (dictSet d k v) k = true := by
  simp [dictHasKey, dictSet, assocGet_assocSet_self]

theorem dictHasKey_dictSet_ne (d : Dict) (k k2 : String) (v : PyVal) (h : k2 ≠ k) :
    dictHasKey (dictSet d k v) k2 = dictHasKey d k2 := by
  simp [dictHasKey, dictSet, assocGet_assocSet_ne _ _ _ _ h]

/-- A key found in an association list is among its keys. -/
theorem keys_contains_of_assocGet {α : Type} (l : List (String × α)) (k : String) (v : α)
    (h : assocGet l k = some v) : (l.map Prod.fst).contains k = true := by
  induction l with
  | nil => simp [assocGet] at h
  | cons p rest ih =>
    obtain ⟨k2, v2⟩ := p
    by_cases h2 : k2 = k
    · simp [h2]
    · simp only [assocGet, if_neg h2] at h
      simpa using Or.inr (by simpa using ih h)

/-!
## C5 — validity of a constructed ACP message
-/

/-- C5: for every constructed ACP message (arbitrary constructor arguments
followed by `__post_init__`), `is_valid` returns `true` exactly when
`from_id`, `to_id`, `intent` and `message` are present (not `None` —
an empty-string intent still counts), `language` is a string of length at
least 2, and `context` is a mapping.  `is_valid` is a pure function of the
message in this embedding, so it mutates nothing. -/
theorem C5_is_valid_iff (raw : ACPMessage) (nowIso : String) (nowTs : Int) :
    ((raw.postInit nowIso nowTs).is_valid = true) ↔
      ((raw.postInit nowIso nowTs).from_id.isNone = false ∧
       (raw.postInit nowIso nowTs).to_id.isNone = false ∧
       (raw.postInit nowIso nowTs).intent.isNone = false ∧
       (raw.postInit nowIso nowTs).message.isNone = false ∧
       (∃ s : String, (raw.postInit nowIso nowTs).language = PyVal.str s ∧ 2 ≤ s.length) ∧
       (∃ d : Dict, (raw.postInit nowIso nowTs).context = PyVal.dict d)) := by
  obtain ⟨f, t, i, mg, lang, ctx, ts, sid⟩ := raw
  simp only [ACPMessage.postInit, ACPMessage.is_valid]
  cases ctx <;> cases lang <;>
    simp_all [PyVal.isNone, Bool.and_eq_true, and_assoc]

/-- C5 witness: a concrete constructed message with all fields present is
valid, and the characterization applies to it. -/
theorem C5_is_valid_iff_witness :
    (ACPMessage.postInit
      ⟨.str "user:alice", .str "agent:router", .str "", .str "hello",
       .str "en-US", .none, .none, .none⟩ "T" 7).is_valid = true := by
  have h := (C5_is_valid_iff
    ⟨.str "user:alice", .str "agent:router", .str "", .str "hello",
     .str "en-US", .none, .none, .none⟩ "T" 7).mpr
  exact h (by refine ⟨rfl, rfl, rfl, rfl, ⟨"en-US", rfl, by decide⟩, ⟨[], rfl⟩⟩)

/-!
## C9 — to_dict / from_dict round trip
-/

/-- C9: converting any constructed ACP message (including ones whose
`context`, `timestamp` and `session_id` were default-filled) to its
dictionary record and re-constructing it with `from_dict` yields the
original message, whatever the clock says at re-construction time. -/
theorem C9_roundtrip (raw : ACPMessage) (nowIso : String) (nowTs : Int)
    (nowIso2 : String) (nowTs2 : Int) :
    ACPMessage.fromDict ((raw.postInit nowIso nowTs).toDict) nowIso2 nowTs2 =
      .ok (raw.postInit nowIso nowTs) := by
  obtain ⟨f, t, i, mg, lang, ctx, ts, sid⟩ := raw
  cases ctx <;> cases ts <;> cases sid <;> rfl

/-- C9 witness: the round trip at a concrete default-filled message. -/
theorem C9_roundtrip_witness :
    ACPMessage.fromDict
      ((ACPMessage.postInit
        ⟨.str "user:a", .str "agent:router", .str "x", .str "m",
         .str "en-US", .none, .none, .none⟩ "2024-01-01T00:00:00" 1700000000).toDict)
      "2025-02-02T00:00:00" 1800000000 =
      .ok (ACPMessage.postInit
        ⟨.str "user:a", .str "agent:router", .str "x", .str "m",
         .str "en-US", .none, .none, .none⟩ "2024-01-01T00:00:00" 1700000000) :=
  C9_roundtrip
    ⟨.str "user:a", .str "agent:router", .str "x", .str "m",
     .str "en-US", .none, .none, .none⟩ "2024-01-01T00:00:00" 1700000000
    "2025-02-02T00:00:00" 1800000000

/-!
## C4 — intent resolution
-/

/-- The five fixed keyword categories in the priority order of the claim:
crop, weather, pest, soil, price. -/
def keywordTable : List (List String × String) :=
  [(["crop", "plant", "grow", "harvest"], "get_crop_advice"),
   (["weather", "rain", "temperature", "climate"], "get_weather"),
   (["pest", "disease", "insect", "treatment"], "pest_control"),
   (["soil", "ph", "nutrient", "fertilizer"], "soil_analysis"),
   (["price", "market", "cost", "sell"], "market_prices")]

/-- Intent resolution as the claim words it: the intent field verbatim
when it is a non-empty string, else the intent of the first category whose
keyword set has a member occurring in the lower-cased text, else the
general-help fallback. -/
def resolvedIntentSpec (intent text : String) : String :=
  if intent ≠ "" then intent
  else
    ((keywordTable.find? (fun p => containsAny (strLower text) p.1)).map Prod.snd).getD
      "general_help"

/-- The keyword cascade of the source equals the first-match search over
the keyword table. -/
theorem keywordIntent_eq_find (s : String) :
    keywordIntent s =
      ((keywordTable.find? (fun p => containsAny (strLower s) p.1)).map Prod.snd).getD
        "general_help" := by
  unfold keywordIntent keywordTable
  by_cases c1 : containsAny (strLower s) ["crop", "plant", "grow", "harvest"] <;>
  by_cases c2 : containsAny (strLower s) ["weather", "rain", "temperature", "climate"] <;>
  by_cases c3 : containsAny (strLower s) ["pest", "disease", "insect", "treatment"] <;>
  by_cases c4 : containsAny (strLower s) ["soil", "ph", "nutrient", "fertilizer"] <;>
  by_cases c5 : containsAny (strLower s) ["price", "market", "cost", "sell"] <;>
    simp [List.find?, c1, c2, c3, c4, c5]

/-- C4: for every message whose intent and payload fields are strings,
`_analyze_intent` returns exactly the resolution the claim describes:
a non-empty explicit intent verbatim, else the first keyword category
(crop, weather, pest, soil, price order) with a member occurring in the
lower-cased text, else `general_help`. -/
theorem C4_resolved_intent (m : ACPMessage) (i s : String)
    (hi : m.intent = .str i) (hm : m.message = .str s) :
    analyzeIntent m = .ok (.str (resolvedIntentSpec i s)) := by
  unfold analyzeIntent resolvedIntentSpec
  rw [hi, hm]
  by_cases hie : i = ""
  · subst hie
    have he : "".isEmpty = true := rfl
    simp [PyVal.truthy, keywordIntent_eq_find, he]
  · have hd : i.data ≠ [] := by
      cases i with
      | mk d =>
        cases d with
        | nil => exact absurd rfl hie
        | cons c cs => simp
    simp [PyVal.truthy, hd, hie]

/-- C4 witness: auto-detection on a concrete weather question. -/
theorem C4_resolved_intent_witness :
    analyzeIntent
      ⟨.str "user:a", .str "agent:router", .str "", .str "What is the Weather forecast?",
       .str "en-US", .dict [], .str "T", .str "s1"⟩ =
      .ok (.str (resolvedIntentSpec "" "What is the Weather forecast?")) :=
  C4_resolved_intent _ "" "What is the Weather forecast?" rfl rfl

/-!
## C7 — registration
-/

/-- C7 counterexample: `register` with a metadata mapping containing a key
that is not an `AgentMetadata` field raises `TypeError` (refuting
"register never fails for every metadata mapping").  The handler has
nevertheless already been stored when the error is raised. -/
theorem C7_counterexample :
    AgentRegistry.register AgentRegistry.empty "alpha" Agent.plain [("bogus", PyVal.int 1)] =
      .error ("__init__() got an unexpected keyword argument bogus",
              { agents := [("alpha", Agent.plain)], metadata := [] }) := rfl

/-- The metadata record `register` builds from a recognized-keys mapping. -/
def builtMeta (name : String) (metadata : Dict) : AgentMetadata :=
  AgentMetadata.postInit
    { name := name
      description := (dictGet metadata "description").getD (.str "")
      capabilities := (dictGet metadata "capabilities").getD .none
      intents := (dictGet metadata "intents").getD .none
      version := (dictGet metadata "version").getD (.str "1.0.0")
      is_active := (dictGet metadata "is_active").getD (.bool true)
      config := (dictGet metadata "config").getD .none }

/-- C7 amended: whenever every key of the metadata mapping is a recognized
`AgentMetadata` field, `register` returns normally, stores the handler and
the metadata under the name (overwriting any prior record: the name then
maps to exactly this handler and this metadata), and this holds for
already-registered names as well — the registry raises for unrecognized
metadata keys, so "never fails" holds only under that restriction. -/
theorem C7_register_upsert (r : AgentRegistry) (name : String) (agent : Agent)
    (metadata : Dict) (h : ∀ p ∈ metadata, p.1 ∈ allowedMetaKeys) :
    AgentRegistry.register r name agent metadata =
      .ok { agents := assocSet r.agents name agent,
            metadata := assocSet r.metadata name (builtMeta name metadata) } ∧
    assocGet (assocSet r.agents name agent) name = some agent ∧
    assocGet (assocSet r.metadata name (builtMeta name metadata)) name =
      some (builtMeta name metadata) := by
  have hf : metadata.find? (fun p => !(allowedMetaKeys.contains p.1)) = Option.none := by
    rw [List.find?_eq_none]
    intro p hp
    simp [h p hp]
  refine ⟨?_, assocGet_assocSet_self _ _ _, assocGet_assocSet_self _ _ _⟩
  unfold AgentRegistry.register AgentMetadata.fromKwargs
  rw [hf]
  rfl

/-- C7 witness: registering twice under one name with recognized metadata
keys succeeds and the second write wins. -/
theorem C7_register_upsert_witness :
    AgentRegistry.register
      { agents := [("alpha", Agent.plain)],
        metadata := [("alpha", builtMeta "alpha" [])] }
      "alpha" Agent.plain [("description", PyVal.str "v2")] =
      .ok { agents := [("alpha", Agent.plain)],
            metadata := [("alpha", builtMeta "alpha" [("description", PyVal.str "v2")])] } := by
  have h := (C7_register_upsert
    { agents := [("alpha", Agent.plain)], metadata := [("alpha", builtMeta "alpha" [])] }
    "alpha" Agent.plain [("description", PyVal.str "v2")]
    (by intro p hp; simp at hp; simp [hp, allowedMetaKeys])).1
  simpa [assocSet] using h


/-!
## C8 — conversation-history eviction
-/

/-- The last `n` entries of a list, in order. -/
def takeLast {α : Type} (n : Nat) (l : List α) : List α := l.drop (l.length - n)

theorem takeLast_of_le {α : Type} (n : Nat) (l : List α) (h : l.length ≤ n) :
    takeLast n l = l := by
  unfold takeLast
  have : l.length - n = 0 := by omega
  simp [this]

theorem takeLast_length_le {α : Type} (n : Nat) (l : List α) :
    (takeLast n l).length ≤ n := by
  unfold takeLast
  simp
  omega

theorem takeLast_cons_of_le {α : Type} (n : Nat) (x : α) (l : List α) (h : n ≤ l.length) :
    takeLast n (x :: l) = takeLast n l := by
  unfold takeLast
  have : (x :: l).length - n = (l.length - n) + 1 := by simp; omega
  rw [this, List.drop_succ_cons]

/-- Truncating the retained block again after appending more entries keeps
only the last `n` either way. -/
theorem takeLast_append_takeLast {α : Type} (n : Nat) (xs ys : List α) :
    takeLast n (takeLast n xs ++ ys) = takeLast n (xs ++ ys) := by
  induction xs with
  | nil => simp [takeLast]
  | cons x xs ih =>
    by_cases h : (x :: xs).length ≤ n
    · rw [takeLast_of_le _ _ h]
    · have h2 : n ≤ xs.length := by simp at h; omega
      have h3 : n ≤ (xs ++ ys).length := by simp; omega
      rw [takeLast_cons_of_le _ _ _ h2, List.cons_append, takeLast_cons_of_le _ _ _ h3, ih]

/-- The truncation step of `add_conversation_message` is `takeLast 100`. -/
theorem truncate100_eq_takeLast (l : List PyVal) : truncate100 l = takeLast 100 l := by
  unfold truncate100 takeLast
  by_cases h : l.length > 100
  · simp [h]
  · have : l.length - 100 = 0 := by omega
    simp [h, this]

/-- A session document as `add_conversation_message` writes it. -/
def memWith (uid : String) (hist : List PyVal) (now : String) : Memory :=
  [("user_" ++ uid, [("conversation_history", .list hist), ("last_updated", .str now)])]

/-- Appending a sequence of messages one by one
(`add_conversation_message` in a loop). -/
def appendAll (mem : Memory) (uid : String) (msgs : List Dict) (now : String) :
    Except String Memory :=
  match msgs with
  | [] => .ok mem
  | m :: rest =>
    match MemoryManager.add_conversation_message mem uid m now with
    | .error e => .error e
    | .ok mem2 => appendAll mem2 uid rest now

theorem add_message_empty (uid now : String) (m : Dict)
    (hm : dictHasKey m "timestamp" = true) :
    MemoryManager.add_conversation_message [] uid m now =
      .ok (memWith uid (takeLast 100 [PyVal.dict m]) now) := by
  have hm2 : (assocGet m "timestamp").isSome = true := hm
  unfold MemoryManager.add_conversation_message MemoryManager.get_session
    MemoryManager.save_session memWith
  simp [assocGet, assocSet, dictHasKey, dictGet, dictSet, hm2,
    truncate100_eq_takeLast]

theorem add_message_memWith (uid now : String) (l : List PyVal) (m : Dict)
    (hm : dictHasKey m "timestamp" = true) :
    MemoryManager.add_conversation_message (memWith uid l now) uid m now =
      .ok (memWith uid (takeLast 100 (l ++ [PyVal.dict m])) now) := by
  have hm2 : (assocGet m "timestamp").isSome = true := hm
  unfold MemoryManager.add_conversation_message MemoryManager.get_session
    MemoryManager.save_session memWith
  simp [assocGet, assocSet, dictHasKey, dictGet, dictSet, hm2,
    truncate100_eq_takeLast]

theorem appendAll_memWith (uid now : String) (msgs : List Dict) :
    ∀ l : List PyVal, (∀ m ∈ msgs, dictHasKey m "timestamp" = true) → l.length ≤ 100 →
    appendAll (memWith uid l now) uid msgs now =
      .ok (memWith uid (takeLast 100 (l ++ msgs.map PyVal.dict)) now) := by
  induction msgs with
  | nil =>
    intro l _ hl
    simp [appendAll, takeLast_of_le _ _ hl]
  | cons m rest ih =>
    intro l hmsgs hl
    have hm : dictHasKey m "timestamp" = true := hmsgs m (by simp)
    have hrest : ∀ x ∈ rest, dictHasKey x "timestamp" = true :=
      fun x hx => hmsgs x (by simp [hx])
    simp only [appendAll, add_message_memWith uid now l m hm]
    rw [ih _ hrest (takeLast_length_le _ _), takeLast_append_takeLast]
    simp

/-- C8: appending any sequence of (timestamped) messages to one caller's
initially empty session store leaves exactly the most recent 100 of them,
in arrival order: the history is bounded at 100, the oldest entries are
dropped first, and the surviving entries keep their relative order.  For
105 messages this is precisely the most recent 100. -/
theorem C8_history_eviction (uid now : String) (msgs : List Dict)
    (hmsgs : ∀ m ∈ msgs, dictHasKey m "timestamp" = true)
    (hne : 0 < msgs.length) :
    appendAll [] uid msgs now =
      .ok (memWith uid (takeLast 100 (msgs.map PyVal.dict)) now) := by
  match msgs, hne with
  | m :: rest, _ =>
    have hm : dictHasKey m "timestamp" = true := hmsgs m (by simp)
    have hrest : ∀ x ∈ rest, dictHasKey x "timestamp" = true :=
      fun x hx => hmsgs x (by simp [hx])
    simp only [appendAll, add_message_empty uid now m hm]
    rw [appendAll_memWith uid now rest _ hrest (takeLast_length_le _ _),
      takeLast_append_takeLast]
    simp

/-- The 105 concrete messages of the claim. -/
def msgs105 : List Dict :=
  (List.range 105).map (fun n => [("message", .str (toString n)), ("timestamp", .str "t")])

/-- C8 witness: appending the 105 concrete messages leaves the most recent
100 in order. -/
theorem C8_history_eviction_witness :
    (∀ m ∈ msgs105, dictHasKey m "timestamp" = true) ∧ 0 < msgs105.length ∧
    appendAll [] "alice" msgs105 "T" =
      .ok (memWith "alice" (takeLast 100 (msgs105.map PyVal.dict)) "T") := by
  refine ⟨?_, ?_, ?_⟩
  · intro m hm
    simp only [msgs105, List.mem_map] at hm
    obtain ⟨n, _, rfl⟩ := hm
    rfl
  · decide
  · exact C8_history_eviction "alice" "T" msgs105
      (by
        intro m hm
        simp only [msgs105, List.mem_map] at hm
        obtain ⟨n, _, rfl⟩ := hm
        rfl)
      (by decide)

/-!
## Route-level reasoning
-/

/-- Unfolding of `route` past parsing, validation, caller-id extraction
and intent analysis. -/
theorem route_eq_of (st : RouterState) (rec : Dict) (msg : ACPMessage) (uid : String)
    (intent : PyVal)
    (h1 : ACPMessage.fromDict rec st.nowIso st.nowTs = .ok msg)
    (h2 : msg.is_valid = true)
    (h3 : extractUserId msg.from_id = .ok uid)
    (h4 : analyzeIntent msg = .ok intent) :
    route st rec =
      match selectAgents st.registry st.intentMapping st.toolChains intent msg.ctxDict with
      | .error e => createErrorResponse ("Routing error: " ++ e)
      | .ok [] => createErrorResponse ("No agent found for intent: " ++ intent.pyStr)
      | .ok (a1 :: rest) =>
        match (if !rest.isEmpty then executeToolChain st (a1 :: rest) msg uid
               else .ok (invokeSingleAgent st a1 msg uid)) with
        | .error e => createErrorResponse ("Routing error: " ++ e)
        | .ok response =>
          dictSet (dictSet (dictSet response "execution_time" (.int 0))
            "session_id" msg.session_id) "user_id" (.str uid) := by
  unfold route
  rw [h1]
  simp only [h2, h3, h4, Bool.not_true, Bool.false_eq_true, if_false]

/-!
## C1 — intent mapped only to unregistered handlers
-/

/-- Registry for the C1 counterexample: a general assistant is registered
(and active), the seeded mapping for `get_weather` names only the
unregistered `weather` handler. -/
def regC1 : AgentRegistry :=
  { agents := [("general_assistant", Agent.withInvoke (fun _ _ => .ok (.str "GA answer")))],
    metadata := [("general_assistant",
      ⟨"general_assistant", .str "", .list [], .list [], .str "1.0.0", .bool true, .dict []⟩)] }

def stC1 : RouterState :=
  { registry := regC1, memory := [], intentMapping := defaultIntentMapping,
    toolChains := defaultToolChains, nowIso := "T0", nowTs := 0 }

def recC1 : Dict :=
  [("from_id", .str "user:alice"), ("to_id", .str "agent:router"),
   ("intent", .str "get_weather"), ("message", .str "hi"),
   ("language", .str "en-US"), ("context", .dict []),
   ("timestamp", .str "T0"), ("session_id", .str "s1")]

/-- C1 counterexample: with `general_assistant` registered and the
resolved intent `get_weather` mapped only to the unregistered handler
`weather`, `route` does **not** select the general assistant: it returns
the no-agent-found failure envelope. -/
theorem C1_counterexample :
    AgentRegistry.is_registered stC1.registry "general_assistant" = true ∧
    assocGet stC1.intentMapping "get_weather" = some ["weather"] ∧
    AgentRegistry.is_registered stC1.registry "weather" = false ∧
    route stC1 recC1 = createErrorResponse "No agent found for intent: get_weather" :=
  ⟨rfl, rfl, rfl, rfl⟩

/-- C1 amended: when the resolved intent has an entry in the
intent-to-handlers mapping listing only handler names that are not
currently registered (and the message is not a tool-chain request),
`route` returns the no-agent-found failure envelope — whether or not a
`general_assistant` handler is registered.  The general-assistant fallback
applies only to intents with no mapping entry and no by-intent match. -/
theorem C1_mapped_unregistered_fails (st : RouterState) (rec : Dict) (msg : ACPMessage)
    (uid : String) (intent : String) (handlers : List String)
    (h1 : ACPMessage.fromDict rec st.nowIso st.nowTs = .ok msg)
    (h2 : msg.is_valid = true)
    (h3 : extractUserId msg.from_id = .ok uid)
    (h4 : analyzeIntent msg = .ok (.str intent))
    (h5 : assocGet st.intentMapping intent = some handlers)
    (h6 : ∀ a ∈ handlers, st.registry.is_registered a = false)
    (h7 : dictGet msg.ctxDict "tool_chain" = Option.none) :
    route st rec = createErrorResponse ("No agent found for intent: " ++ intent) := by
  rw [route_eq_of st rec msg uid (.str intent) h1 h2 h3 h4]
  have hkeys : (st.intentMapping.map Prod.fst).contains intent = true :=
    keys_contains_of_assocGet _ _ _ h5
  have hfilter : handlers.filter (fun a => st.registry.is_registered a) = [] := by
    rw [List.filter_eq_nil_iff]
    intro a ha
    simp [h6 a ha]
  unfold selectAgents
  simp only [h7, Option.getD_none, PyVal.truthy, strKeyMember, hkeys, h5, Option.getD_some,
    hfilter, PyVal.pyStr]
  rfl

/-- C1 witness: the amended behavior at a concrete input whose intent
`soil_analysis` is mapped only to the unregistered `soil_analyzer`. -/
theorem C1_mapped_unregistered_fails_witness :
    route stC1
      [("from_id", .str "user:ada"), ("to_id", .str "agent:router"),
       ("intent", .str "soil_analysis"), ("message", .str "check my soil"),
       ("language", .str "en-US"), ("context", .dict []),
       ("timestamp", .str "T0"), ("session_id", .str "s2")] =
      createErrorResponse "No agent found for intent: soil_analysis" :=
  C1_mapped_unregistered_fails stC1
    [("from_id", .str "user:ada"), ("to_id", .str "agent:router"),
     ("intent", .str "soil_analysis"), ("message", .str "check my soil"),
     ("language", .str "en-US"), ("context", .dict []),
     ("timestamp", .str "T0"), ("session_id", .str "s2")]
    ⟨.str "user:ada", .str "agent:router", .str "soil_analysis", .str "check my soil",
     .str "en-US", .dict [], .str "T0", .str "s2"⟩
    "ada" "soil_analysis" ["soil_analyzer"]
    rfl rfl rfl rfl rfl
    (by intro a ha; simp at ha; subst ha; rfl)
    rfl

/-!
## C6 — envelope metadata
-/

/-- A record that parses but fails validation (language of length 1). -/
def recInvalidC6 : Dict :=
  [("from_id", .str "user:bob"), ("to_id", .str "agent:router"),
   ("intent", .str ""), ("message", .str "hi"), ("language", .str "e"),
   ("timestamp", .str "T0"), ("session_id", .str "s")]

/-- C6 counterexample: the failure envelope for an invalid message has
`success = false` but carries none of `execution_time`, `session_id`,
`user_id` (refuting "every envelope returned by route carries them"). -/
theorem C6_counterexample :
    dictGet (route stC1 recInvalidC6) "success" = some (.bool false) ∧
    dictHasKey (route stC1 recInvalidC6) "execution_time" = false ∧
    dictHasKey (route stC1 recInvalidC6) "session_id" = false ∧
    dictHasKey (route stC1 recInvalidC6) "user_id" = false :=
  ⟨rfl, rfl, rfl, rfl⟩

/-- C6 amended: the envelope returned from the dispatch path (single
handler or chain) always carries `execution_time`, `session_id` and
`user_id`; the short-circuit failure envelopes (invalid message, no
handler found, internal routing exception) are returned without them. -/
theorem C6_dispatch_has_metadata (st : RouterState) (rec : Dict) (msg : ACPMessage)
    (uid : String) (intent : PyVal) (a1 : String) (rest : List String) (resp0 : Dict)
    (h1 : ACPMessage.fromDict rec st.nowIso st.nowTs = .ok msg)
    (h2 : msg.is_valid = true)
    (h3 : extractUserId msg.from_id = .ok uid)
    (h4 : analyzeIntent msg = .ok intent)
    (h5 : selectAgents st.registry st.intentMapping st.toolChains intent msg.ctxDict =
      .ok (a1 :: rest))
    (h6 : (if !rest.isEmpty then executeToolChain st (a1 :: rest) msg uid
           else .ok (invokeSingleAgent st a1 msg uid)) = .ok resp0) :
    dictHasKey (route st rec) "execution_time" = true ∧
    dictHasKey (route st rec) "session_id" = true ∧
    dictHasKey (route st rec) "user_id" = true := by
  rw [route_eq_of st rec msg uid intent h1 h2 h3 h4]
  simp only [h5, h6]
  refine ⟨?_, ?_, ?_⟩
  · rw [dictHasKey_dictSet_ne _ _ _ _ (by decide), dictHasKey_dictSet_ne _ _ _ _ (by decide)]
    exact dictHasKey_dictSet_self _ _ _
  · rw [dictHasKey_dictSet_ne _ _ _ _ (by decide)]
    exact dictHasKey_dictSet_self _ _ _
  · exact dictHasKey_dictSet_self _ _ _

/-- State for the C6/C2 witnesses: a registered market agent. -/
def stW : RouterState :=
  { registry :=
      { agents := [("market_agent", Agent.withInvoke (fun _ _ => .ok (.str "price is 10")))],
        metadata := [("market_agent",
          ⟨"market_agent", .str "", .list [], .list [], .str "1.0.0", .bool true, .dict []⟩)] },
    memory := [], intentMapping := defaultIntentMapping,
    toolChains := defaultToolChains, nowIso := "T0", nowTs := 0 }

def recW : Dict :=
  [("from_id", .str "user:carol"), ("to_id", .str "agent:router"),
   ("intent", .str "market_prices"), ("message", .str "price of rice"),
   ("language", .str "en-US"), ("context", .dict []),
   ("timestamp", .str "T0"), ("session_id", .str "s9")]

def msgW : ACPMessage :=
  ⟨.str "user:carol", .str "agent:router", .str "market_prices", .str "price of rice",
   .str "en-US", .dict [], .str "T0", .str "s9"⟩

/-- C6 witness: a dispatched single-agent response carries the three
metadata fields. -/
theorem C6_dispatch_has_metadata_witness :
    dictHasKey (route stW recW) "execution_time" = true ∧
    dictHasKey (route stW recW) "session_id" = true ∧
    dictHasKey (route stW recW) "user_id" = true :=
  C6_dispatch_has_metadata stW recW msgW "carol" (.str "market_prices")
    "market_agent" [] (invokeSingleAgent stW "market_agent" msgW "carol")
    rfl rfl rfl rfl rfl rfl

/-!
## C10 — records with keys outside the ACP fields
-/

/-- C10: a routed record containing any key outside the eight ACP message
fields makes message construction raise before validation can run; the
top-level handler of `route` converts that into a failure envelope whose
error text begins with `Routing error:` (not the invalid-format error). -/
theorem C10_unknown_key (st : RouterState) (rec : Dict) (k : String) (v : PyVal)
    (hmem : (k, v) ∈ rec) (hbad : k ∉ acpFieldNames) :
    ∃ e, ACPMessage.fromDict rec st.nowIso st.nowTs = .error e ∧
      route st rec = createErrorResponse ("Routing error: " ++ e) ∧
      dictGet (route st rec) "success" = some (.bool false) := by
  have hsome : (rec.find? (fun p => !(acpFieldNames.contains p.1))).isSome := by
    rw [List.find?_isSome]
    refine ⟨(k, v), hmem, ?_⟩
    simp [hbad]
  obtain ⟨q, hq⟩ := Option.isSome_iff_exists.mp hsome
  have hfd : ACPMessage.fromDict rec st.nowIso st.nowTs =
      .error ("__init__() got an unexpected keyword argument " ++ q.1) := by
    unfold ACPMessage.fromDict
    rw [hq]
  refine ⟨_, hfd, ?_, ?_⟩
  · unfold route
    rw [hfd]
  · unfold route
    rw [hfd]
    rfl

def recC10 : Dict :=
  ("extra_field", .int 1) ::
  [("from_id", .str "user:bob"), ("to_id", .str "agent:router"),
   ("intent", .str ""), ("message", .str "hi"), ("language", .str "en-US"),
   ("timestamp", .str "T0"), ("session_id", .str "s")]

/-- C10 witness: the behavior at a concrete record with the stray key
`extra_field`. -/
theorem C10_unknown_key_witness :
    ∃ e, ACPMessage.fromDict recC10 stC1.nowIso stC1.nowTs = .error e ∧
      route stC1 recC10 = createErrorResponse ("Routing error: " ++ e) ∧
      dictGet (route stC1 recC10) "success" = some (.bool false) :=
  C10_unknown_key stC1 recC10 "extra_field" (.int 1) (List.mem_cons_self _ _) (by decide)

/-!
## C3 — chain partial failure
-/

theorem truthy_str_ne (s : String) (h : s ≠ "") : PyVal.truthy (.str s) = true := by
  cases s with
  | mk d =>
    cases d with
    | nil => exact absurd rfl h
    | cons c cs => rfl

theorem dictGet_dictSet_ne (d : Dict) (k k2 : String) (v : PyVal) (h : k2 ≠ k) :
    dictGet (dictSet d k v) k2 = dictGet d k2 :=
  assocGet_assocSet_ne d k k2 v h

/-- C3: in a three-step tool chain whose second handler raises while the
first and third succeed on the contexts they are given, `route` still
invokes the third handler and returns an envelope with `success = true`
and `tool_chain = true` whose `step_results` carry the two results and the
error marker for step 2. -/
theorem C3_chain_partial_failure (st : RouterState) (rec : Dict) (msg : ACPMessage)
    (uid : String) (iv : PyVal) (cn : String) (n1 n2 n3 p1 p2 p3 : String)
    (f1 f2 f3 : PyVal → Dict → Except String PyVal)
    (c0 : Dict) (r1 r3 : PyVal) (e2 : String)
    (h1 : ACPMessage.fromDict rec st.nowIso st.nowTs = .ok msg)
    (h2 : msg.is_valid = true)
    (h3 : extractUserId msg.from_id = .ok uid)
    (h4 : analyzeIntent msg = .ok iv)
    (h5 : dictGet msg.ctxDict "tool_chain" = some (.str cn))
    (h5b : cn ≠ "")
    (h5c : assocGet st.toolChains cn = some [⟨n1, p1⟩, ⟨n2, p2⟩, ⟨n3, p3⟩])
    (hg1 : st.registry.get n1 = some (.withInvoke f1))
    (hg2 : st.registry.get n2 = some (.withInvoke f2))
    (hg3 : st.registry.get n3 = some (.withInvoke f3))
    (hpc : prepareContext st.memory uid msg.ctxDict st.nowTs = .ok c0)
    (hf1 : f1 msg.message c0 = .ok r1)
    (hf2 : f2 msg.message
        (dictSet c0 "previous_results" (.list [.dict (stepOk n1 1 r1)])) = .error e2)
    (hf3 : f3 msg.message
        (dictSet (dictSet c0 "previous_results" (.list [.dict (stepOk n1 1 r1)]))
          "previous_results"
          (.list [.dict (stepOk n1 1 r1), .dict (stepErr n2 2 e2)])) = .ok r3) :
    dictGet (route st rec) "success" = some (.bool true) ∧
    dictGet (route st rec) "tool_chain" = some (.bool true) ∧
    dictGet (route st rec) "step_results" =
      some (.list [.dict (stepOk n1 1 r1), .dict (stepErr n2 2 e2),
                   .dict (stepOk n3 3 r3)]) := by
  have hkeys : (st.toolChains.map Prod.fst).contains cn = true :=
    keys_contains_of_assocGet _ _ _ h5c
  have hsel : selectAgents st.registry st.intentMapping st.toolChains iv msg.ctxDict =
      .ok [n1, n2, n3] := by
    unfold selectAgents
    rw [h5]
    simp only [Option.getD_some, truthy_str_ne cn h5b, if_true, strKeyMember, hkeys, h5c,
      List.map]
  have hloop : chainLoop st.registry msg.message [n1, n2, n3] c0 [] 1 =
      ([stepOk n1 1 r1, stepErr n2 2 e2, stepOk n3 3 r3],
       dictSet (dictSet c0 "previous_results" (.list [.dict (stepOk n1 1 r1)]))
         "previous_results"
         (.list [.dict (stepOk n1 1 r1), .dict (stepErr n2 2 e2)])) := by
    simp only [chainLoop, chainStep, AgentRegistry.is_registered, hg1, hg2, hg3,
      Option.isSome_some, if_true, hf1, hf2, hf3, List.isEmpty, List.map]
    norm_num [hf2, hf3]
  have hcr : chainResponse st [n1, n2, n3] msg c0 =
      [("success", .bool true),
       ("tool_chain", .bool true),
       ("agents", .list [.str n1, .str n2, .str n3]),
       ("response", .str (combineToolChainResults
         [stepOk n1 1 r1, stepErr n2 2 e2, stepOk n3 3 r3])),
       ("step_results", .list [.dict (stepOk n1 1 r1), .dict (stepErr n2 2 e2),
         .dict (stepOk n3 3 r3)]),
       ("context", .dict (dictSet
         (dictSet (dictSet c0 "previous_results" (.list [.dict (stepOk n1 1 r1)]))
           "previous_results"
           (.list [.dict (stepOk n1 1 r1), .dict (stepErr n2 2 e2)]))
         "previous_results"
         (.list [.dict (stepOk n1 1 r1), .dict (stepErr n2 2 e2),
           .dict (stepOk n3 3 r3)])))] := by
    unfold chainResponse
    rw [hloop]
    norm_num
  have hexec : executeToolChain st [n1, n2, n3] msg uid =
      .ok (chainResponse st [n1, n2, n3] msg c0) := by
    unfold executeToolChain
    rw [hpc]
  rw [route_eq_of st rec msg uid iv h1 h2 h3 h4]
  simp only [hsel, List.isEmpty, Bool.not_false, if_true, hexec, hcr]
  refine ⟨?_, ?_, ?_⟩ <;>
    rw [dictGet_dictSet_ne _ _ _ _ (by decide), dictGet_dictSet_ne _ _ _ _ (by decide),
      dictGet_dictSet_ne _ _ _ _ (by decide)] <;> rfl

/-- State for the C3 witness: the three seeded chain agents, the middle
one raising. -/
def stC3 : RouterState :=
  { registry :=
      { agents :=
          [("weather", Agent.withInvoke (fun _ _ => .ok (.str "sunny"))),
           ("crop_advisor", Agent.withInvoke (fun _ _ => .error "boom")),
           ("pest_assistant", Agent.withInvoke (fun _ _ => .ok (.str "no pests")))],
        metadata := [] },
    memory := [], intentMapping := defaultIntentMapping,
    toolChains := defaultToolChains, nowIso := "T0", nowTs := 0 }

def recC3 : Dict :=
  [("from_id", .str "user:bob"), ("to_id", .str "agent:router"),
   ("intent", .str "anything"), ("message", .str "advise me"),
   ("language", .str "en-US"),
   ("context", .dict [("tool_chain", .str "comprehensive_advice")]),
   ("timestamp", .str "T0"), ("session_id", .str "s1")]

def msgC3 : ACPMessage :=
  ⟨.str "user:bob", .str "agent:router", .str "anything", .str "advise me",
   .str "en-US", .dict [("tool_chain", .str "comprehensive_advice")],
   .str "T0", .str "s1"⟩

def c0C3 : Dict :=
  [("tool_chain", .str "comprehensive_advice"), ("user_id", .str "bob"),
   ("timestamp", .int 0)]

/-- C3 witness: the concrete seeded chain with a failing second step. -/
theorem C3_chain_partial_failure_witness :
    dictGet (route stC3 recC3) "success" = some (.bool true) ∧
    dictGet (route stC3 recC3) "tool_chain" = some (.bool true) ∧
    dictGet (route stC3 recC3) "step_results" =
      some (.list [.dict (stepOk "weather" 1 (.str "sunny")),
                   .dict (stepErr "crop_advisor" 2 "boom"),
                   .dict (stepOk "pest_assistant" 3 (.str "no pests"))]) :=
  C3_chain_partial_failure stC3 recC3 msgC3 "bob" (.str "anything")
    "comprehensive_advice" "weather" "crop_advisor" "pest_assistant"
    "get_weather_data" "get_crop_recommendations" "get_pest_advice"
    (fun _ _ => .ok (.str "sunny")) (fun _ _ => .error "boom")
    (fun _ _ => .ok (.str "no pests"))
    c0C3 (.str "sunny") (.str "no pests") "boom"
    rfl rfl rfl rfl rfl (by decide) rfl rfl rfl rfl rfl rfl rfl rfl

/-!
## C2 — persistence of the exchange
-/

theorem get_session_save (mem : Memory) (uid : String) (s : Dict) :
    MemoryManager.get_session (MemoryManager.save_session mem uid s) uid = s := by
  simp [MemoryManager.get_session, MemoryManager.save_session, assocGet_assocSet_self]

theorem dictGet_dictSet_self (d : Dict) (k : String) (v : PyVal) :
    dictGet (dictSet d k v) k = some v :=
  assocGet_assocSet_self d k v

theorem truncate100_snoc (l : List PyVal) (x : PyVal) :
    ∃ pre, truncate100 (l ++ [x]) = pre ++ [x] := by
  unfold truncate100
  by_cases hbig : (l ++ [x]).length > 100
  · have hk : (l ++ [x]).length - 100 ≤ l.length := by
      simp only [List.length_append, List.length_cons, List.length_nil] at hbig ⊢
      omega
    rw [if_pos hbig, List.drop_append_of_le_length hk]
    exact ⟨_, rfl⟩
  · rw [if_neg hbig]
    exact ⟨l, rfl⟩

theorem add_message_no_history (mem : Memory) (uid now : String) (pair : Dict)
    (hts : dictHasKey pair "timestamp" = false)
    (hch : dictGet (MemoryManager.get_session mem uid) "conversation_history" =
      Option.none) :
    MemoryManager.add_conversation_message mem uid pair now =
      .ok (MemoryManager.save_session mem uid
        (dictSet (dictSet (dictSet (MemoryManager.get_session mem uid)
            "conversation_history" (.list []))
          "conversation_history"
          (.list (truncate100 ([] ++ [PyVal.dict (dictSet pair "timestamp" (.str now))]))))
          "last_updated" (.str now))) := by
  have hch2 : assocGet (MemoryManager.get_session mem uid) "conversation_history" =
      Option.none := hch
  have hk : dictHasKey (MemoryManager.get_session mem uid) "conversation_history" = false := by
    simp [dictHasKey, hch2]
  unfold MemoryManager.add_conversation_message
  simp only [hk, hts, Bool.false_eq_true, if_false, dictGet_dictSet_self]

theorem add_message_with_history (mem : Memory) (uid now : String) (pair : Dict)
    (l : List PyVal)
    (hts : dictHasKey pair "timestamp" = false)
    (hch : dictGet (MemoryManager.get_session mem uid) "conversation_history" =
      some (.list l)) :
    MemoryManager.add_conversation_message mem uid pair now =
      .ok (MemoryManager.save_session mem uid
        (dictSet (dictSet (MemoryManager.get_session mem uid)
          "conversation_history"
          (.list (truncate100 (l ++ [PyVal.dict (dictSet pair "timestamp" (.str now))]))))
          "last_updated" (.str now))) := by
  have hch2 : assocGet (MemoryManager.get_session mem uid) "conversation_history" =
      some (.list l) := hch
  have hk : dictHasKey (MemoryManager.get_session mem uid) "conversation_history" = true := by
    simp [dictHasKey, hch2]
  unfold MemoryManager.add_conversation_message
  simp only [hk, hts, if_true, Bool.false_eq_true, if_false, hch]

/-- `add_conversation_message` with a timestamp-free entry: it returns
normally (when any existing history is a list) and the new history ends
with the stamped entry, earlier surviving entries in front. -/
theorem add_message_appends (mem : Memory) (uid now : String) (pair : Dict)
    (hts : dictHasKey pair "timestamp" = false)
    (hh : ∀ v, dictGet (MemoryManager.get_session mem uid) "conversation_history" = some v →
      ∃ l, v = PyVal.list l) :
    ∃ mem2 pre,
      MemoryManager.add_conversation_message mem uid pair now = .ok mem2 ∧
      dictGet (MemoryManager.get_session mem2 uid) "conversation_history" =
        some (.list (pre ++ [PyVal.dict (dictSet pair "timestamp" (.str now))])) := by
  cases hch : dictGet (MemoryManager.get_session mem uid) "conversation_history" with
  | none =>
    refine ⟨_, [], add_message_no_history mem uid now pair hts hch, ?_⟩
    rw [get_session_save]
    rw [dictGet_dictSet_ne _ _ _ _ (by decide), dictGet_dictSet_self]
    rfl
  | some v =>
    obtain ⟨l, rfl⟩ := hh v hch
    obtain ⟨pre, hpre⟩ :=
      truncate100_snoc l (PyVal.dict (dictSet pair "timestamp" (.str now)))
    refine ⟨_, pre, add_message_with_history mem uid now pair l hts hch, ?_⟩
    rw [get_session_save]
    rw [dictGet_dictSet_ne _ _ _ _ (by decide), dictGet_dictSet_self, hpre]

/-- C2: for every valid message that `route` dispatches (a handler or a
chain was selected), the routing entry point (`handle_message`, which
wraps `AgentRouter.route` per the spec pipeline) appends the
`(message, response)` pair — stamped with the current time — to the
caller's conversation history in the session store, and returns exactly
the `route` response envelope to the caller. -/
theorem C2_route_persists_exchange (st : RouterState) (rec : Dict) (msg : ACPMessage)
    (uid : String) (iv : PyVal) (a1 : String) (rest : List String)
    (h1 : ACPMessage.fromDict rec st.nowIso st.nowTs = .ok msg)
    (h2 : msg.is_valid = true)
    (h3 : extractUserId msg.from_id = .ok uid)
    (_h4 : analyzeIntent msg = .ok iv)
    (_h5 : selectAgents st.registry st.intentMapping st.toolChains iv msg.ctxDict =
      .ok (a1 :: rest))
    (hh : ∀ v, dictGet (MemoryManager.get_session st.memory uid) "conversation_history" =
      some v → ∃ l, v = PyVal.list l) :
    ∃ mem2 pre,
      handleMessage st rec = (route st rec, mem2) ∧
      dictGet (MemoryManager.get_session mem2 uid) "conversation_history" =
        some (.list (pre ++ [PyVal.dict
          [("message", .dict msg.toDict), ("response", .dict (route st rec)),
           ("timestamp", .str st.nowIso)]])) := by
  obtain ⟨mem2, pre, hadd, hget⟩ := add_message_appends st.memory uid st.nowIso
    [("message", .dict msg.toDict), ("response", .dict (route st rec))] rfl hh
  refine ⟨mem2, pre, ?_, ?_⟩
  · unfold handleMessage
    rw [h1]
    simp only [h2, Bool.not_true, Bool.false_eq_true, if_false, h3, hadd]
  · exact hget

def recC2 : Dict :=
  [("from_id", .str "user:dana"), ("to_id", .str "agent:router"),
   ("intent", .str "market_prices"), ("message", .str "price of rice"),
   ("language", .str "en-US"), ("context", .dict []),
   ("timestamp", .str "T0"), ("session_id", .str "s9")]

def msgC2 : ACPMessage :=
  ⟨.str "user:dana", .str "agent:router", .str "market_prices", .str "price of rice",
   .str "en-US", .dict [], .str "T0", .str "s9"⟩

/-- C2 witness: a concrete dispatched exchange is persisted. -/
theorem C2_route_persists_exchange_witness :
    ∃ mem2 pre,
      handleMessage stW recC2 = (route stW recC2, mem2) ∧
      dictGet (MemoryManager.get_session mem2 "dana") "conversation_history" =
        some (.list (pre ++ [PyVal.dict
          [("message", .dict msgC2.toDict), ("response", .dict (route stW recC2)),
           ("timestamp", .str stW.nowIso)]])) :=
  C2_route_persists_exchange stW recC2 msgC2 "dana" (.str "market_prices")
    "market_agent" [] rfl rfl rfl rfl rfl
    (by intro v hv; exact absurd hv (by simp [MemoryManager.get_session, assocGet, dictGet]))

end GcpAgentor
